import Mathlib

/-!
Shallow embedding of the sidecar lifecycle manager in
src/src-tauri/src/main.rs (liteskill-oss).

Machine integers are modelled as Nat (ports fit in u16, PIDs in u32; no
arithmetic in the source overflows).  OS interactions (TCP bind, TCP
connect, process liveness) are modelled as oracles passed explicitly.
Time is discretised at the source's own poll granularity: the readiness
probe sleeps 200 ms per iteration and the graceful-shutdown wait sleeps
100 ms per iteration, so elapsed time after n sleeps is n poll intervals.
Side effects (signals, kills, dialogs, process exit) are reified as
elements of an action trace returned alongside the new state.
-/

namespace Liteskill

/-- `SERVER_READY_TIMEOUT` from main.rs line 13, in milliseconds. -/
def SERVER_READY_TIMEOUT_MS : Nat := 120000

/-- `SERVER_READY_POLL` from main.rs line 15, in milliseconds. -/
def SERVER_READY_POLL_MS : Nat := 200

/-- `GRACEFUL_SHUTDOWN_TIMEOUT` from main.rs line 17, in milliseconds. -/
def GRACEFUL_SHUTDOWN_TIMEOUT_MS : Nat := 3000

/-- Sleep interval of the graceful-shutdown liveness poll loop
(main.rs line 98: `sleep(Duration::from_millis(100))`). -/
def GRACEFUL_POLL_MS : Nat := 100

/-- `PREFERRED_PORTS` from main.rs line 21. -/
def PREFERRED_PORTS : List Nat := [4000, 3000, 5173]

/-- `SidecarProcess` (main.rs lines 29-32).  The opaque
`tauri_plugin_shell::process::CommandChild` handle is modelled as a Nat
identity token; `pid` is the optional OS process id. -/
structure SidecarProcess where
  child : Option Nat
  pid : Option Nat
deriving DecidableEq, Repr

/-- `AppState` (main.rs lines 23-27): a mutex-protected optional sidecar
handle plus the one-shot `shutting_down` atomic flag. -/
structure AppState where
  sidecar_child : Option SidecarProcess
  shutting_down : Bool
deriving DecidableEq, Repr

/-- OS-level effects performed by the supervisor, tagged by call site. -/
inductive OsAction where
  /-- main.rs lines 85-87: `kill -TERM <pid>` (graceful terminate). -/
  | signalTerm (pid : Nat)
  /-- main.rs lines 136-139: the explicit post-timeout fallback
  `process.child.take()` followed by `child.kill()`. -/
  | explicitChildKill (c : Nat)
  /-- main.rs lines 34-40: `child.kill()` issued by
  `impl Drop for SidecarProcess` when the handle still owns a child. -/
  | dropChildKill (c : Nat)
deriving DecidableEq, Repr

/-- `impl Drop for SidecarProcess` (main.rs lines 34-40): if the handle
still owns a child, take it and kill it (best effort). -/
def SidecarProcess.dropActions (p : SidecarProcess) : List OsAction :=
  match p.child with
  | some c => [OsAction.dropChildKill c]
  | none => []

/-- Number of iterations of the graceful-wait loop (main.rs lines 89-99):
the loop runs while `start.elapsed() < GRACEFUL_SHUTDOWN_TIMEOUT`, sleeping
100 ms per iteration, so with idealised time it polls at elapsed
0, 100, ..., 2900 ms: 30 polls. -/
def gracefulPollCount : Nat := GRACEFUL_SHUTDOWN_TIMEOUT_MS / GRACEFUL_POLL_MS

/-- The graceful-wait loop body (main.rs lines 90-99) starting at poll
index `k` with `remaining` polls left before the timeout.  `alive n`
is the oracle for the `kill -0 <pid>` liveness probe at poll `n`
(true = the probe command succeeded, i.e. the process still exists).
Returns `true` when some poll within the window observed the process
gone (the `return` at line 95), `false` when the timeout elapsed. -/
def gracefulWaitFrom (alive : Nat → Bool) (k : Nat) : Nat → Bool
  | 0 => false
  | r + 1 => if alive k then gracefulWaitFrom alive (k + 1) r else true

/-- `kill_sidecar` (main.rs lines 62-140), unix branch, as a function of
the liveness oracle and the current `AppState`.  Returns the new state
together with the trace of OS-level actions performed during the call,
including those fired by the destructor of the local `process` binding
when the function returns. -/
def kill_sidecar (alive : Nat → Bool) (s : AppState) : AppState × List OsAction :=
  if s.shutting_down then
    -- line 68: swap(true) returned true, another caller already started
    (s, [])
  else
    let s1 : AppState := { sidecar_child := s.sidecar_child, shutting_down := true }
    match s.sidecar_child with
    | none =>
      -- line 75: guard.take() found nothing to do
      (s1, [])
    | some process =>
      -- guard.take(): the slot is emptied before any signal is sent
      let s2 : AppState := { sidecar_child := none, shutting_down := true }
      match process.pid with
      | some pid =>
        if gracefulWaitFrom alive 0 gracefulPollCount then
          -- line 95 return: graceful success.  The local binding
          -- still owns the child, so Drop (lines 34-40) kills it.
          (s2, OsAction.signalTerm pid :: process.dropActions)
        else
          -- timeout: lines 136-139 take the child and kill it; the
          -- subsequent Drop then sees child = none and does nothing.
          (s2, OsAction.signalTerm pid ::
            (match process.child with
             | some c => [OsAction.explicitChildKill c]
             | none => []))
      | none =>
        -- no pid: skip the signalling block, go straight to lines 136-139
        (s2, (match process.child with
              | some c => [OsAction.explicitChildKill c]
              | none => []))

/-- N sequential invocations of `kill_sidecar`, one liveness oracle per
invocation, accumulating the combined action trace. -/
def killN (oracles : List (Nat → Bool)) (s : AppState) : AppState × List OsAction :=
  match oracles with
  | [] => (s, [])
  | o :: os =>
    let r1 := kill_sidecar o s
    let r2 := killN os r1.1
    (r2.1, r1.2 ++ r2.2)

/-- State effect of `start_server` (main.rs lines 349-356): on a
successful spawn the slot is overwritten, unconditionally, with a fresh
handle owning the child and its pid; the `shutting_down` flag is not
consulted and not modified. -/
def start_server_store (child pid : Nat) (s : AppState) : AppState :=
  { sidecar_child := some { child := some child, pid := some pid },
    shutting_down := s.shutting_down }

/-- Supervisor-level operations for sequences mixing shutdown calls and
spawns (claim C10). -/
inductive SupOp where
  | kill (alive : Nat → Bool)
  | spawn (child pid : Nat)

/-- Run one supervisor operation. -/
def runSupOp (op : SupOp) (s : AppState) : AppState × List OsAction :=
  match op with
  | SupOp.kill alive => kill_sidecar alive s
  | SupOp.spawn child pid => (start_server_store child pid s, [])

/-- Run a sequence of supervisor operations, accumulating the trace. -/
def runSupOps (ops : List SupOp) (s : AppState) : AppState × List OsAction :=
  match ops with
  | [] => (s, [])
  | op :: rest =>
    let r1 := runSupOp op s
    let r2 := runSupOps rest r1.1
    (r2.1, r1.2 ++ r2.2)

/-- Loop body of `find_free_port` (main.rs lines 380-386): try each
preferred port in order; `busy p = true` means the bind of a TCP listener
on `("127.0.0.1", p)` fails.  Returns the first port whose bind succeeds. -/
def tryPreferred (busy : Nat → Bool) : List Nat → Option Nat
  | [] => none
  | p :: ps => if busy p then tryPreferred busy ps else some p

/-- `find_free_port` (main.rs lines 379-395).  `busy` is the bind oracle
for the preferred ports; `ephemeral` is the outcome of the fallback bind
to `127.0.0.1:0` combined with `local_addr()` (`some p` = the OS assigned
port `p`; `none` = the ephemeral bind or the address query failed). -/
def find_free_port (busy : Nat → Bool) (ephemeral : Option Nat) : Except String Nat :=
  match tryPreferred busy PREFERRED_PORTS with
  | some p => Except.ok p
  | none =>
    match ephemeral with
    | some p => Except.ok p
    | none => Except.error "Failed to bind to ephemeral port"

/-- Number of sleeps after which the readiness loop (main.rs lines
404-416) gives up: the loop errors once `start.elapsed() >=
SERVER_READY_TIMEOUT`; with idealised time, elapsed after n sleeps of
200 ms is 200 n ms, so the connect attempt at iteration 600 is the last. -/
def maxReadyPolls : Nat := SERVER_READY_TIMEOUT_MS / SERVER_READY_POLL_MS

/-- Error message of `check_server_started` (main.rs lines 410-413). -/
def readyErrMsg (port : Nat) : String :=
  "Server did not become reachable at localhost:" ++ toString port ++ " within 120s"

/-- Loop of `check_server_started` (main.rs lines 404-416) at iteration
`n` with `remaining` sleeps left before the timeout.  `connect n` is the
oracle for `TcpStream::connect` at iteration `n`.  Returns the result
together with the total number of connect attempts made. -/
def checkLoop (connect : Nat → Bool) (port : Nat) (n : Nat) :
    Nat → Except String Unit × Nat
  | 0 =>
    if connect n then (Except.ok (), n + 1)
    else (Except.error (readyErrMsg port), n + 1)
  | r + 1 =>
    if connect n then (Except.ok (), n + 1)
    else checkLoop connect port (n + 1) r

/-- `check_server_started` (main.rs lines 399-417): poll a TCP connect on
the given port every 200 ms until success or the 120 s bound elapses. -/
def check_server_started (connect : Nat → Bool) (port : Nat) :
    Except String Unit × Nat :=
  checkLoop connect port 0 maxReadyPolls

/-- The `on_navigation` closure (main.rs lines 194-205 and 281-292):
given the URL's `host_str()` and the URL itself, returns whether the
navigation is allowed in-window, together with `some url` when the URL
was instead handed to `open_in_system_browser` (main.rs lines 43-58). -/
def on_navigation (host : Option String) (url : String) : Bool × Option String :=
  match host with
  | some "localhost" => (true, none)
  | some "127.0.0.1" => (true, none)
  | _ => (false, some url)

/-- Rust `str::parse::<u16>()` (core unsigned integer from_str): after an
optional leading plus sign there must be at least one character and every
character must be an ASCII digit; the value must fit in 16 bits. -/
def parseDigits : List Char → Option Nat
  | [] => none
  | cs =>
    if cs.all (fun c => c.isDigit)
    then some (cs.foldl (fun acc c => acc * 10 + (c.toNat - 48)) 0)
    else none

/-- The optional leading plus sign accepted by Rust's unsigned
integer parser. -/
def stripPlus : List Char → List Char
  | '+' :: rest => rest
  | cs => cs

/-- Rust `s.parse::<u16>().ok()` on the string `s`. -/
def parseU16 (s : String) : Option Nat :=
  match parseDigits (stripPlus s.toList) with
  | some n => if n < 65536 then some n else none
  | none => none

/-- The dev-mode port computation (main.rs lines 170-173):
`env::var("LITESKILL_PORT").ok().and_then(parse).unwrap_or(4000)`.
`env = none` models the variable being unset (or not unicode). -/
def dev_port (env : Option String) : Nat :=
  match env with
  | none => 4000
  | some s =>
    match parseU16 s with
    | some p => p
    | none => 4000

/-- Lifecycle steps performed by the two launch paths, used to state
which collaborators each path invokes. -/
inductive LifecycleStep where
  /-- A call to `find_free_port` (the Port Negotiator). -/
  | negotiatePort
  /-- A call to `start_server` with the chosen port (Supervisor spawn). -/
  | spawnSidecar (port : Nat)
  /-- A call to `kill_sidecar` (Supervisor shutdown). -/
  | shutdownSidecar
  /-- A call to `check_server_started` on the given port. -/
  | readinessProbe (port : Nat)
  /-- Building the webview window pointed at `http://localhost:<port>`. -/
  | connectWindow (port : Nat)
  /-- Showing the blocking error dialog with the given title. -/
  | dialog (title : String)
  /-- `std::process::exit(code)`. -/
  | exitProcess (code : Nat)
deriving DecidableEq, Repr

/-- `run_dev_mode` (main.rs lines 169-212) as the sequence of lifecycle
steps it performs, given the `LITESKILL_PORT` environment value: it
computes the port and connects a window at `http://localhost:<port>`;
no negotiation, no spawn, no shutdown, no readiness probe. -/
def run_dev_mode (env : Option String) : List LifecycleStep :=
  [LifecycleStep.connectWindow (dev_port env)]

/-- The `setup` closure of `run_production_mode` (main.rs lines 227-308)
as the sequence of lifecycle steps it performs, given the outcomes of the
four fallible stages: port negotiation, sidecar spawn, readiness probe,
and window creation. -/
def production_setup (portResult : Except String Nat)
    (spawnResult : Except String Unit) (probeResult : Except String Unit)
    (windowResult : Except String Unit) : List LifecycleStep :=
  match portResult with
  | Except.error _ =>
    -- lines 228-241: dialog then exit(1); kill_sidecar is not called
    [LifecycleStep.negotiatePort,
     LifecycleStep.dialog "Liteskill - Startup Error",
     LifecycleStep.exitProcess 1]
  | Except.ok port =>
    match spawnResult with
    | Except.error _ =>
      -- lines 244-254: dialog then exit(1); kill_sidecar is not called
      [LifecycleStep.negotiatePort, LifecycleStep.spawnSidecar port,
       LifecycleStep.dialog "Liteskill - Startup Error",
       LifecycleStep.exitProcess 1]
    | Except.ok _ =>
      match probeResult with
      | Except.error _ =>
        -- lines 256-267: kill_sidecar, dialog, exit(1)
        [LifecycleStep.negotiatePort, LifecycleStep.spawnSidecar port,
         LifecycleStep.readinessProbe port, LifecycleStep.shutdownSidecar,
         LifecycleStep.dialog "Liteskill - Startup Error",
         LifecycleStep.exitProcess 1]
      | Except.ok _ =>
        match windowResult with
        | Except.error _ =>
          -- lines 273-305: kill_sidecar, dialog, exit(1)
          [LifecycleStep.negotiatePort, LifecycleStep.spawnSidecar port,
           LifecycleStep.readinessProbe port,
           LifecycleStep.connectWindow port, LifecycleStep.shutdownSidecar,
           LifecycleStep.dialog "Liteskill - Startup Error",
           LifecycleStep.exitProcess 1]
        | Except.ok _ =>
          [LifecycleStep.negotiatePort, LifecycleStep.spawnSidecar port,
           LifecycleStep.readinessProbe port,
           LifecycleStep.connectWindow port]

/-! ## Helper lemmas about the supervisor -/

/-- When the flag was already set, `kill_sidecar` returns at line 69:
the state is untouched and no OS action is performed. -/
theorem kill_sidecar_noop_of_flag (alive : Nat → Bool) (s : AppState)
    (h : s.shutting_down = true) : kill_sidecar alive s = (s, []) := by
  simp [kill_sidecar, h]

/-- A first call to `kill_sidecar` (flag not yet set) leaves the state
with the flag set and the handle slot empty, whatever the slot held. -/
theorem kill_sidecar_state_after (alive : Nat → Bool) (s : AppState)
    (h : s.shutting_down = false) :
    (kill_sidecar alive s).1 =
      { sidecar_child := none, shutting_down := true } := by
  obtain ⟨sc, sd⟩ := s
  simp only at h
  subst h
  cases sc with
  | none => rfl
  | some process =>
    cases hp : process.pid with
    | none => simp [kill_sidecar, hp]
    | some pid =>
      by_cases hg : gracefulWaitFrom alive 0 gracefulPollCount <;>
        simp [kill_sidecar, hp, hg]

/-- Once the flag is set, any sequence of further `kill_sidecar` calls is
a pure no-op: state unchanged, empty trace. -/
theorem killN_noop_of_flag (oracles : List (Nat → Bool)) (s : AppState)
    (h : s.shutting_down = true) : killN oracles s = (s, []) := by
  induction oracles with
  | nil => rfl
  | cons o os ih =>
    simp [killN, kill_sidecar_noop_of_flag o s h, ih]

/-! ## C1 -/

/-- C1.  Shutdown is idempotent: starting from a state whose shutdown
flag is unset, invoking `kill_sidecar` N = 1 + |os| times performs
exactly the actions of the first invocation (every later call is a
no-op), the flag is set, and after any number n >= 1 of invocations the
handle slot is empty. -/
theorem kill_sidecar_idempotent (o : Nat → Bool) (os : List (Nat → Bool))
    (s : AppState) (h : s.shutting_down = false) :
    killN (o :: os) s = kill_sidecar o s ∧
    (killN (o :: os) s).1.shutting_down = true ∧
    (killN (o :: os) s).1.sidecar_child = none ∧
    (∀ n, 1 ≤ n → (killN ((o :: os).take n) s).1.sidecar_child = none) := by
  have hstate := kill_sidecar_state_after o s h
  have hflag : (kill_sidecar o s).1.shutting_down = true := by
    rw [hstate]
  have hrest : killN os (kill_sidecar o s).1 = ((kill_sidecar o s).1, []) :=
    killN_noop_of_flag os _ hflag
  have hmain : killN (o :: os) s = kill_sidecar o s := by
    simp [killN, hrest]
  refine ⟨hmain, ?_, ?_, ?_⟩
  · rw [hmain, hstate]
  · rw [hmain, hstate]
  · intro n hn
    obtain ⟨m, rfl⟩ := Nat.exists_eq_add_of_le hn
    have hrest2 : killN (os.take m) (kill_sidecar o s).1 =
        ((kill_sidecar o s).1, []) := killN_noop_of_flag _ _ hflag
    rw [hstate] at hrest2
    rw [Nat.add_comm 1 m]
    simp [killN, List.take_succ_cons, hrest2, hstate]

/-- C1 witness: a concrete double invocation on a populated state. -/
theorem kill_sidecar_idempotent_wit :
    ((⟨some ⟨some 7, some 42⟩, false⟩ : AppState).shutting_down = false) ∧
    (killN [fun _ => false, fun _ => false]
        ⟨some ⟨some 7, some 42⟩, false⟩ =
      kill_sidecar (fun _ => false) ⟨some ⟨some 7, some 42⟩, false⟩ ∧
    (killN [fun _ => false, fun _ => false]
        ⟨some ⟨some 7, some 42⟩, false⟩).1.shutting_down = true ∧
    (killN [fun _ => false, fun _ => false]
        ⟨some ⟨some 7, some 42⟩, false⟩).1.sidecar_child = none ∧
    (∀ n, 1 ≤ n →
      (killN (([fun _ => false, fun _ => false] :
          List (Nat → Bool)).take n)
        ⟨some ⟨some 7, some 42⟩, false⟩).1.sidecar_child = none)) :=
  ⟨rfl, kill_sidecar_idempotent (fun _ => false) [fun _ => false]
    ⟨some ⟨some 7, some 42⟩, false⟩ rfl⟩

/-! ## C10 -/

/-- No supervisor operation resets the flag: one step preserves
`shutting_down = true` (`kill_sidecar` returns at once; `start_server`
stores a handle without touching the flag). -/
theorem runSupOp_flag_mono (op : SupOp) (s : AppState)
    (h : s.shutting_down = true) : (runSupOp op s).1.shutting_down = true := by
  cases op with
  | kill alive =>
    show (kill_sidecar alive s).1.shutting_down = true
    rw [kill_sidecar_noop_of_flag alive s h]
    exact h
  | spawn child pid => exact h

/-- The flag stays set across any sequence of operations. -/
theorem runSupOps_flag_mono (ops : List SupOp) (s : AppState)
    (h : s.shutting_down = true) :
    (runSupOps ops s).1.shutting_down = true := by
  induction ops generalizing s with
  | nil => exact h
  | cons op rest ih =>
    exact ih (runSupOp op s).1 (runSupOp_flag_mono op s h)

/-- C10.  The shutdown flag is monotone: after one `kill_sidecar` call
that observed the flag unset, no later sequence of operations (including
spawns that refill the handle slot) ever clears it, and any subsequent
`kill_sidecar` call returns immediately — the state (in particular the
handle slot) is unmodified and no signal or kill is issued. -/
theorem shutting_down_monotone (o : Nat → Bool) (s : AppState)
    (h : s.shutting_down = false) (ops : List SupOp) (o2 : Nat → Bool) :
    (runSupOps ops (kill_sidecar o s).1).1.shutting_down = true ∧
    kill_sidecar o2 (runSupOps ops (kill_sidecar o s).1).1 =
      ((runSupOps ops (kill_sidecar o s).1).1, []) := by
  have hflag : (kill_sidecar o s).1.shutting_down = true := by
    rw [kill_sidecar_state_after o s h]
  have hmono := runSupOps_flag_mono ops (kill_sidecar o s).1 hflag
  exact ⟨hmono, kill_sidecar_noop_of_flag o2 _ hmono⟩

/-- C10 witness: shutdown on a populated state, then a fresh spawn
refills the slot, and a second shutdown call is still a pure no-op. -/
theorem shutting_down_monotone_wit :
    ((⟨some ⟨some 7, some 42⟩, false⟩ : AppState).shutting_down = false) ∧
    ((runSupOps [SupOp.spawn 8 43]
        (kill_sidecar (fun _ => false)
          ⟨some ⟨some 7, some 42⟩, false⟩).1).1.shutting_down = true ∧
     kill_sidecar (fun _ => false)
        (runSupOps [SupOp.spawn 8 43]
          (kill_sidecar (fun _ => false)
            ⟨some ⟨some 7, some 42⟩, false⟩).1).1 =
       ((runSupOps [SupOp.spawn 8 43]
          (kill_sidecar (fun _ => false)
            ⟨some ⟨some 7, some 42⟩, false⟩).1).1, [])) :=
  ⟨rfl, shutting_down_monotone (fun _ => false)
    ⟨some ⟨some 7, some 42⟩, false⟩ rfl [SupOp.spawn 8 43] (fun _ => false)⟩

/-! ## C2 -/

/-- C2 counterexample.  A sidecar that is observed gone at the very
first liveness poll (it exited on its own right after the terminate
signal): the claim says no OS-level kill call is made on this
graceful-success path, including by the handle's destructor — but the
`return` at main.rs line 95 drops the local `process` binding with its
child still owned, so `Drop` (lines 34-40) issues `child.kill()`. -/
theorem graceful_drop_kill_cex :
    (kill_sidecar (fun _ => false)
        ⟨some ⟨some 7, some 42⟩, false⟩).2 =
      [OsAction.signalTerm 42, OsAction.dropChildKill 7] ∧
    OsAction.dropChildKill 7 ∈
      (kill_sidecar (fun _ => false)
        ⟨some ⟨some 7, some 42⟩, false⟩).2 := by
  constructor
  · rfl
  · rw [show (kill_sidecar (fun _ => false)
        ⟨some ⟨some 7, some 42⟩, false⟩).2 =
      [OsAction.signalTerm 42, OsAction.dropChildKill 7] from rfl]
    simp

/-- C2 amended.  On the graceful-success path (the liveness poll
observes the process gone within the 3 s window), `kill_sidecar` never
executes the forced-kill escalation — neither the post-timeout fallback
`child.kill()` at lines 136-139 nor (on the unix branch modelled here)
any other explicit kill — but the handle's destructor still issues one
unconditional `child.kill()` on the already-exited child, because the
child was never taken out of the handle before the early return. -/
theorem graceful_no_forced_kill (alive : Nat → Bool) (s : AppState)
    (child pid : Nat)
    (hflag : s.shutting_down = false)
    (hslot : s.sidecar_child = some ⟨some child, some pid⟩)
    (hdead : gracefulWaitFrom alive 0 gracefulPollCount = true) :
    (kill_sidecar alive s).2 =
      [OsAction.signalTerm pid, OsAction.dropChildKill child] ∧
    (∀ c, OsAction.explicitChildKill c ∉ (kill_sidecar alive s).2) := by
  obtain ⟨sc, sd⟩ := s
  simp only at hflag hslot
  subst hflag
  subst hslot
  constructor
  · simp [kill_sidecar, hdead, SidecarProcess.dropActions]
  · intro c
    simp [kill_sidecar, hdead, SidecarProcess.dropActions]

/-- C2 amended witness: the concrete graceful-success run of the
counterexample input. -/
theorem graceful_no_forced_kill_wit :
    ((⟨some ⟨some 7, some 42⟩, false⟩ : AppState).shutting_down = false ∧
     (⟨some ⟨some 7, some 42⟩, false⟩ : AppState).sidecar_child =
       some ⟨some 7, some 42⟩ ∧
     gracefulWaitFrom (fun _ => false) 0 gracefulPollCount = true) ∧
    ((kill_sidecar (fun _ => false)
        ⟨some ⟨some 7, some 42⟩, false⟩).2 =
      [OsAction.signalTerm 42, OsAction.dropChildKill 7] ∧
    (∀ c, OsAction.explicitChildKill c ∉
      (kill_sidecar (fun _ => false)
        ⟨some ⟨some 7, some 42⟩, false⟩).2)) :=
  ⟨⟨rfl, rfl, rfl⟩,
   graceful_no_forced_kill (fun _ => false)
     ⟨some ⟨some 7, some 42⟩, false⟩ 7 42 rfl rfl rfl⟩

/-! ## C8 -/

/-- C8.  A `SidecarProcess` handle that still owns a live child when it
is dropped (the shutdown path never took the child out) has its
destructor issue the unconditional `child.kill()` on exactly that child,
so releasing the handle never leaves the sidecar running. -/
theorem drop_kills_owned_child (p : SidecarProcess) (c : Nat)
    (h : p.child = some c) :
    p.dropActions = [OsAction.dropChildKill c] := by
  obtain ⟨pc, pp⟩ := p
  simp only at h
  subst h
  rfl

/-- C8 witness: dropping a handle that owns child 5. -/
theorem drop_kills_owned_child_wit :
    ((⟨some 5, some 9⟩ : SidecarProcess).child = some 5) ∧
    (⟨some 5, some 9⟩ : SidecarProcess).dropActions =
      [OsAction.dropChildKill 5] :=
  ⟨rfl, drop_kills_owned_child ⟨some 5, some 9⟩ 5 rfl⟩

/-! ## C3 -/

/-- The preferred-port loop returns exactly the first list element whose
bind succeeds. -/
theorem tryPreferred_eq_find (busy : Nat → Bool) (l : List Nat) :
    tryPreferred busy l = l.find? (fun q => !busy q) := by
  induction l with
  | nil => rfl
  | cons p ps ih =>
    by_cases h : busy p <;> simp [tryPreferred, List.find?, h, ih]

/-- C3.  `find_free_port` returns the first preferred port (in the fixed
order 4000, 3000, 5173) whose loopback bind succeeds; when every
preferred port is busy it returns the OS-assigned ephemeral port; it
errors exactly when all preferred ports are busy and even the ephemeral
bind fails; and it never returns a port whose bind attempt failed
(the hypothesis states that a successful ephemeral bind yields a
bindable port). -/
theorem find_free_port_correct (busy : Nat → Bool) (ephemeral : Option Nat)
    (hcons : ∀ p, ephemeral = some p → busy p = false) :
    (∀ p, PREFERRED_PORTS.find? (fun q => !busy q) = some p →
        find_free_port busy ephemeral = Except.ok p) ∧
    ((∀ p ∈ PREFERRED_PORTS, busy p = true) → ∀ q, ephemeral = some q →
        find_free_port busy ephemeral = Except.ok q) ∧
    (∀ p, find_free_port busy ephemeral = Except.ok p → busy p = false) ∧
    ((∃ e, find_free_port busy ephemeral = Except.error e) ↔
        ((∀ p ∈ PREFERRED_PORTS, busy p = true) ∧ ephemeral = none)) := by
  have hfind := tryPreferred_eq_find busy PREFERRED_PORTS
  refine ⟨?_, ?_, ?_, ?_⟩
  · intro p hp
    simp [find_free_port, hfind, hp]
  · intro hall q hq
    have hnone : PREFERRED_PORTS.find? (fun q => !busy q) = none := by
      rw [List.find?_eq_none]
      intro x hx
      simp [hall x hx]
    simp [find_free_port, hfind, hnone, hq]
  · intro p hp
    unfold find_free_port at hp
    rw [hfind] at hp
    cases hf : PREFERRED_PORTS.find? (fun q => !busy q) with
    | some q =>
      rw [hf] at hp
      have hq := List.find?_some hf
      simp only [Except.ok.injEq] at hp
      subst hp
      simpa using hq
    | none =>
      rw [hf] at hp
      cases he : ephemeral with
      | some q =>
        rw [he] at hp
        simp only [Except.ok.injEq] at hp
        subst hp
        exact hcons q he
      | none => rw [he] at hp; exact absurd hp (by simp)
  · constructor
    · rintro ⟨e, he⟩
      unfold find_free_port at he
      rw [hfind] at he
      cases hf : PREFERRED_PORTS.find? (fun q => !busy q) with
      | some q => rw [hf] at he; exact absurd he (by simp)
      | none =>
        rw [hf] at he
        cases heph : ephemeral with
        | some q => rw [heph] at he; exact absurd he (by simp)
        | none =>
          refine ⟨?_, rfl⟩
          intro p hp
          have := List.find?_eq_none.mp hf p hp
          simpa using this
    · rintro ⟨hall, rfl⟩
      have hnone : PREFERRED_PORTS.find? (fun q => !busy q) = none := by
        rw [List.find?_eq_none]
        intro x hx
        simp [hall x hx]
      exact ⟨"Failed to bind to ephemeral port", by
        simp [find_free_port, hfind, hnone]⟩

/-- C3 witness: port 4000 busy, ephemeral bind would give 49152; the
negotiator picks 3000, the first free preferred port. -/
theorem find_free_port_correct_wit :
    (∀ p : Nat, (some 49152 : Option Nat) = some p →
        (fun q => decide (q = 4000)) p = false) ∧
    ((∀ p, PREFERRED_PORTS.find?
          (fun q => !(fun q => decide (q = 4000)) q) = some p →
        find_free_port (fun q => decide (q = 4000)) (some 49152) =
          Except.ok p) ∧
    ((∀ p ∈ PREFERRED_PORTS, (fun q => decide (q = 4000)) p = true) →
        ∀ q, (some 49152 : Option Nat) = some q →
        find_free_port (fun q => decide (q = 4000)) (some 49152) =
          Except.ok q) ∧
    (∀ p, find_free_port (fun q => decide (q = 4000)) (some 49152) =
        Except.ok p → (fun q => decide (q = 4000)) p = false) ∧
    ((∃ e, find_free_port (fun q => decide (q = 4000)) (some 49152) =
        Except.error e) ↔
      ((∀ p ∈ PREFERRED_PORTS, (fun q => decide (q = 4000)) p = true) ∧
        (some 49152 : Option Nat) = none))) :=
  ⟨fun p hp => by cases hp; decide,
   find_free_port_correct (fun q => decide (q = 4000)) (some 49152)
     (fun p hp => by cases hp; decide)⟩

/-! ## C6 -/

/-- If every connect attempt in the remaining window fails, the probe
loop returns the timeout error after exhausting exactly the window. -/
theorem checkLoop_timeout (connect : Nat → Bool) (port : Nat) (r n : Nat)
    (h : ∀ k, n ≤ k → k ≤ n + r → connect k = false) :
    checkLoop connect port n r =
      (Except.error (readyErrMsg port), n + r + 1) := by
  induction r generalizing n with
  | zero => simp [checkLoop, h n le_rfl (by omega)]
  | succ r ih =>
    have hn : connect n = false := h n le_rfl (by omega)
    have hrec := ih (n + 1) (fun k hk1 hk2 => h k (by omega) (by omega))
    simp only [checkLoop, hn, Bool.false_eq_true, if_false]
    rw [hrec]
    congr 1
    omega

/-- If the first successful connect within the window is at offset `j`,
the probe loop returns success immediately at that attempt. -/
theorem checkLoop_success (connect : Nat → Bool) (port : Nat) (j : Nat) :
    ∀ n r, j ≤ r → (∀ k, k < j → connect (n + k) = false) →
    connect (n + j) = true →
    checkLoop connect port n r = (Except.ok (), n + j + 1) := by
  induction j with
  | zero =>
    intro n r _ _ hc
    simp only [Nat.add_zero] at hc
    cases r <;> simp [checkLoop, hc]
  | succ j ih =>
    intro n r hj hfirst hc
    cases r with
    | zero => omega
    | succ r =>
      have hn : connect n = false := by
        have := hfirst 0 (by omega)
        simpa using this
      have hrec := ih (n + 1) r (by omega)
        (fun k hk => by
          have := hfirst (k + 1) (by omega)
          rw [show n + (k + 1) = n + 1 + k by omega] at this
          exact this)
        (by rw [show n + 1 + j = n + (j + 1) by omega]; exact hc)
      simp only [checkLoop, hn, Bool.false_eq_true, if_false]
      rw [hrec]
      congr 1
      omega

/-- C6.  The readiness probe returns Ready at the very first iteration
whose TCP connect succeeds (after j failed polls it has made j + 1
connect attempts), and when no connect within the 120 s bound ever
succeeds it terminates with the TimedOut error after exactly
`maxReadyPolls + 1 = 601` attempts instead of looping forever. -/
theorem check_server_started_correct (connect : Nat → Bool) (port : Nat) :
    (∀ j, j ≤ maxReadyPolls → (∀ k, k < j → connect k = false) →
        connect j = true →
        check_server_started connect port = (Except.ok (), j + 1)) ∧
    ((∀ k, k ≤ maxReadyPolls → connect k = false) →
        check_server_started connect port =
          (Except.error (readyErrMsg port), maxReadyPolls + 1)) := by
  constructor
  · intro j hj hfirst hc
    unfold check_server_started
    have := checkLoop_success connect port j 0 maxReadyPolls hj
      (fun k hk => by simpa using hfirst k hk) (by simpa using hc)
    simpa using this
  · intro hall
    unfold check_server_started
    have := checkLoop_timeout connect port maxReadyPolls 0
      (fun k hk1 hk2 => hall k (by omega))
    simpa using this

/-- C6 witness: a port on which no listener ever appears — the probe
terminates with the timeout error after 601 attempts. -/
theorem check_server_started_correct_wit :
    (∀ k, k ≤ maxReadyPolls → (fun _ => false : Nat → Bool) k = false) ∧
    check_server_started (fun _ => false) 9999 =
      (Except.error (readyErrMsg 9999), maxReadyPolls + 1) :=
  ⟨fun _ _ => rfl,
   (check_server_started_correct (fun _ => false) 9999).2 (fun _ _ => rfl)⟩

/-! ## C7 -/

/-- C7.  The in-window navigation filter allows a request exactly when
the URL's host is the literal "localhost" or "127.0.0.1"; every other
request — including URLs with no host — is vetoed in-window and the URL
is handed to the system's default browser; allowed requests are never
opened externally. -/
theorem on_navigation_correct (host : Option String) (url : String) :
    ((on_navigation host url).1 = true ↔
        (host = some "localhost" ∨ host = some "127.0.0.1")) ∧
    ((on_navigation host url).1 = false →
        (on_navigation host url).2 = some url) ∧
    ((on_navigation host url).1 = true →
        (on_navigation host url).2 = none) ∧
    (host = none → (on_navigation host url).1 = false) := by
  rcases host with _ | s
  · simp [on_navigation]
  · by_cases h1 : s = "localhost"
    · subst h1; simp [on_navigation]
    · by_cases h2 : s = "127.0.0.1"
      · subst h2; simp [on_navigation]
      · simp [on_navigation, h1, h2]

/-- C7 witness: an external host is vetoed in-window and handed to the
system browser. -/
theorem on_navigation_correct_wit :
    ((on_navigation (some "example.com") "https://example.com").1
        = false) ∧
    (on_navigation (some "example.com") "https://example.com").2
        = some "https://example.com" :=
  ⟨rfl, (on_navigation_correct (some "example.com")
    "https://example.com").2.1 rfl⟩

/-! ## C5 -/

/-- C5.  The dev-mode path performs exactly one lifecycle step: the
connection of the window to the configured port.  It never invokes the
Port Negotiator (`find_free_port`), the Supervisor (`start_server` /
`kill_sidecar`), or the readiness probe, and the only step touching the
configured port is the window connection. -/
theorem run_dev_mode_no_supervisor (env : Option String) :
    run_dev_mode env = [LifecycleStep.connectWindow (dev_port env)] ∧
    LifecycleStep.negotiatePort ∉ run_dev_mode env ∧
    (∀ p, LifecycleStep.spawnSidecar p ∉ run_dev_mode env) ∧
    LifecycleStep.shutdownSidecar ∉ run_dev_mode env ∧
    (∀ p, LifecycleStep.readinessProbe p ∉ run_dev_mode env) ∧
    (∀ st, st ∈ run_dev_mode env →
        st = LifecycleStep.connectWindow (dev_port env)) := by
  refine ⟨rfl, by simp [run_dev_mode], ?_, by simp [run_dev_mode], ?_, ?_⟩
  · intro p
    simp [run_dev_mode]
  · intro p
    simp [run_dev_mode]
  · intro st hst
    simpa [run_dev_mode] using hst

/-- C5 witness: the dev-mode trace with `LITESKILL_PORT` unset. -/
theorem run_dev_mode_no_supervisor_wit :
    run_dev_mode none = [LifecycleStep.connectWindow (dev_port none)] ∧
    LifecycleStep.negotiatePort ∉ run_dev_mode none ∧
    (∀ p, LifecycleStep.spawnSidecar p ∉ run_dev_mode none) ∧
    LifecycleStep.shutdownSidecar ∉ run_dev_mode none ∧
    (∀ p, LifecycleStep.readinessProbe p ∉ run_dev_mode none) ∧
    (∀ st, st ∈ run_dev_mode none →
        st = LifecycleStep.connectWindow (dev_port none)) :=
  run_dev_mode_no_supervisor none

/-! ## C9 -/

/-- C9.  The dev-mode port: when `LITESKILL_PORT` is unset, or set to
any string that does not parse as a 16-bit unsigned integer, the path
falls back to port 4000 (the computation is total — there is no error
path); when it does parse, the parsed value (< 65536) is used. -/
theorem dev_port_fallback :
    dev_port none = 4000 ∧
    (∀ s, parseU16 s = none → dev_port (some s) = 4000) ∧
    (∀ s n, parseU16 s = some n → dev_port (some s) = n ∧ n < 65536) := by
  refine ⟨rfl, ?_, ?_⟩
  · intro s hs
    simp [dev_port, hs]
  · intro s n hn
    refine ⟨by simp [dev_port, hn], ?_⟩
    unfold parseU16 at hn
    cases hd : parseDigits (stripPlus s.toList) with
    | none => rw [hd] at hn; exact absurd hn (by simp)
    | some m =>
      rw [hd] at hn
      by_cases hm : m < 65536
      · simp only [hm, if_true, Option.some.injEq] at hn
        omega
      · simp [hm] at hn

/-- C9 witness: a non-numeric value and an out-of-range value both fall
back to 4000. -/
theorem dev_port_fallback_wit :
    (parseU16 "not-a-port" = none ∧ parseU16 "70000" = none) ∧
    (dev_port (some "not-a-port") = 4000 ∧
     dev_port (some "70000") = 4000) :=
  ⟨⟨by decide, by decide⟩,
   ⟨dev_port_fallback.2.1 "not-a-port" (by decide),
    dev_port_fallback.2.1 "70000" (by decide)⟩⟩

/-! ## C4 -/

/-- C4 counterexample.  A concrete startup in which the sidecar spawn
fails: the setup closure shows the error dialog and exits with status 1,
but — contrary to the claim — the shutdown-cleanup operation
(`kill_sidecar`) is never invoked on this path (main.rs lines 244-254
contain no `kill_sidecar` call, and `std::process::exit(1)` forgoes the
`ExitRequested` handler). -/
theorem spawn_error_no_shutdown_cex :
    LifecycleStep.shutdownSidecar ∉
      production_setup (Except.ok 4000)
        (Except.error "Failed to spawn sidecar: no such file")
        (Except.ok ()) (Except.ok ()) ∧
    LifecycleStep.dialog "Liteskill - Startup Error" ∈
      production_setup (Except.ok 4000)
        (Except.error "Failed to spawn sidecar: no such file")
        (Except.ok ()) (Except.ok ()) ∧
    LifecycleStep.exitProcess 1 ∈
      production_setup (Except.ok 4000)
        (Except.error "Failed to spawn sidecar: no such file")
        (Except.ok ()) (Except.ok ()) := by
  refine ⟨?_, ?_, ?_⟩ <;> decide

/-- C4 amended.  When `start_server` fails, startup aborts: the setup
closure performs exactly negotiation, the failed spawn, the user-visible
error dialog, and `exit(1)` — and in particular never invokes the
shutdown-cleanup operation (which would have been a no-op anyway, since
nothing was spawned). -/
theorem spawn_error_aborts (port : Nat) (e : String)
    (probeResult windowResult : Except String Unit) :
    production_setup (Except.ok port) (Except.error e)
        probeResult windowResult =
      [LifecycleStep.negotiatePort, LifecycleStep.spawnSidecar port,
       LifecycleStep.dialog "Liteskill - Startup Error",
       LifecycleStep.exitProcess 1] ∧
    LifecycleStep.shutdownSidecar ∉
      production_setup (Except.ok port) (Except.error e)
        probeResult windowResult := by
  constructor
  · rfl
  · rw [show production_setup (Except.ok port) (Except.error e)
        probeResult windowResult =
      [LifecycleStep.negotiatePort, LifecycleStep.spawnSidecar port,
       LifecycleStep.dialog "Liteskill - Startup Error",
       LifecycleStep.exitProcess 1] from rfl]
    simp

/-- C4 amended witness: a concrete spawn failure on port 3000. -/
theorem spawn_error_aborts_wit :
    production_setup (Except.ok 3000)
        (Except.error "Failed to spawn sidecar: permission denied")
        (Except.ok ()) (Except.ok ()) =
      [LifecycleStep.negotiatePort, LifecycleStep.spawnSidecar 3000,
       LifecycleStep.dialog "Liteskill - Startup Error",
       LifecycleStep.exitProcess 1] ∧
    LifecycleStep.shutdownSidecar ∉
      production_setup (Except.ok 3000)
        (Except.error "Failed to spawn sidecar: permission denied")
        (Except.ok ()) (Except.ok ()) :=
  spawn_error_aborts 3000 "Failed to spawn sidecar: permission denied"
    (Except.ok ()) (Except.ok ())

end Liteskill
